import Mathlib

/-!
Shallow embedding of parts of the `great_expectations` repository:

* `contrib/.../expect_profile_numeric_columns_diff_between_inclusive_threshold_range.py`:
  the `_pandas` metric of
  `DataProfilerProfileNumericColumnsDiffBetweenInclusiveThresholdRange`;
* `great_expectations/experimental/datasources/interfaces.py`:
  `BatchRequest`, `BatchSorter`, `DataAsset`, `Datasource`, `Batch`.

Python dictionaries are embedded as association lists built without duplicate
keys (`alookup` is dictionary access, first occurrence wins; `dictInsert` is
dictionary update).  Numeric statistic values and threshold bounds are
embedded as `Rat`; batch-metadata values used for sorting are embedded as
`Int`; batch-request option values appear in the code only through string
formatting, so they are embedded as `String`.
-/

namespace GX

/-- Key lookup in an association list (Python dictionary access `m[k]`). -/
def alookup {α : Type _} (k : String) : List (String × α) → Option α
  | [] => none
  | (k', v) :: rest => if k = k' then some v else alookup k rest

/-- Python dictionary update `m[k] = v`: replace the entry at an existing key
in place, otherwise append a new entry at the end. -/
def dictInsert {α : Type _} : List (String × α) → String → α → List (String × α)
  | [], k, v => [(k, v)]
  | (k', v') :: rest, k, v =>
    if k' = k then (k, v) :: rest else (k', v') :: dictInsert rest k v

/-- Exception classes raised by the embedded code: `BatchRequestError`,
`LookupError`, `BatchError` and the builtin `KeyError`. -/
inductive GXError where
  | batchRequestError
  | lookupError
  | batchError
  | keyError
deriving DecidableEq

/-! ### The profile-diff bounds-checking metric

Embedding of `DataProfilerProfileNumericColumnsDiffBetweenInclusiveThresholdRange._pandas`.
-/

/-- A value appearing in a column's diff statistics: either a numeric delta or
the literal string `"unchanged"` that the profiler emits when there is no
delta. -/
inductive StatVal where
  | num (q : Rat)
  | unchanged
deriving DecidableEq

/-- A `{"lower": ..., "upper": ...}` threshold-range dictionary. -/
structure Bounds where
  lower : Rat
  upper : Rat
deriving DecidableEq

/-- Modelled from the spec: `is_value_between_bounds` lives in
`capitalone_dataprofiler_expectations/expectations/util.py`, which is not part
of the provided source.  Per the spec the expectation "checks whether the
reported delta lies within an inclusive [lower, upper] range", and the call
site passes `inclusive=True`; the non-inclusive branch uses strict
comparisons. -/
def is_value_between_bounds (value lower_bound upper_bound : Rat)
    (inclusive : Bool) : Bool :=
  if inclusive then decide (lower_bound ≤ value ∧ value ≤ upper_bound)
  else decide (lower_bound < value ∧ value < upper_bound)

/-- Modelled from the spec: `replace_generic_operator_in_report_keys` lives in
`capitalone_dataprofiler_expectations/expectations/util.py`, which is not part
of the provided source.  Per the expectation's docstring, a `"*"` key "denotes
a general operator in which the value it stores will be applied to every
[key in `requested_keys`] that has no explicit key"; explicit keys keep their
own entries. -/
def replace_generic_operator_in_report_keys {α : Type _}
    (report_keys : List (String × α)) (requested_keys : List String) :
    List (String × α) :=
  match alookup "*" report_keys with
  | none => report_keys
  | some generic =>
    report_keys.filter (fun p => p.1 ≠ "*") ++
      (requested_keys.filter (fun k => (alookup k report_keys).isNone)).map
        (fun k => (k, generic))

/-- One entry of `profile_diff["data_stats"]`: a column name together with its
dictionary of diff statistics. -/
structure DataStat where
  column_name : String
  statistics : List (String × StatVal)

/-- The part of the diff report read by the metric: the column names of
`profile_diff["global_stats"]["profile_schema"][1]` and the
`profile_diff["data_stats"]` list. -/
structure ProfileDiff where
  profile_schema_columns : List String
  data_stats : List DataStat

/-- The scan `for data_stat in data_stats: if data_stat["column_name"] == col`
of `_pandas`: the statistics of the first entry for `col`, the empty
dictionary when there is none. -/
def findColStats (data_stats : List DataStat) (col : String) :
    List (String × StatVal) :=
  match data_stats with
  | [] => []
  | d :: rest => if d.column_name = col then d.statistics else findColStats rest col

/-- Result recorded for one requested statistic of a numeric, present column. -/
inductive StatResult where
  | statNotFound
  | pass
  | fail (lower_bound upper_bound value_found : Rat)
deriving DecidableEq

/-- Result recorded for one requested column. -/
inductive ColResult where
  | nonNumeric
  | notFound
  | stats (m : List (String × StatResult))
deriving DecidableEq

/-- Inner loop body of `_pandas` for one requested statistic: missing
statistics give the marker string, `"unchanged"` deltas are replaced by `0`,
and the delta is checked against the bounds inclusively. -/
def processStat (col_data_stats : List (String × StatVal)) (stat : String)
    (bounds : Bounds) : StatResult :=
  match alookup stat col_data_stats with
  | none => .statNotFound
  | some sv =>
    let diff_val : Rat := match sv with
      | .unchanged => 0
      | .num q => q
    if is_value_between_bounds diff_val bounds.lower bounds.upper true then
      .pass
    else
      .fail bounds.lower bounds.upper diff_val

/-- Outer loop body of `_pandas` for one requested column: the non-numeric
check runs first, then the statistic wildcard is expanded, then the
profile-schema check runs, then each requested statistic is processed. -/
def processColumn (numeric_columns columns : List String)
    (data_stats : List DataStat) (numerical_diff_statistics : List String)
    (col : String) (stats : List (String × Bounds)) : ColResult :=
  if col ∈ numeric_columns then
    let stats' := replace_generic_operator_in_report_keys stats
      numerical_diff_statistics
    if col ∈ columns then
      let col_data_stats := findColStats data_stats col
      .stats (stats'.map (fun p => (p.1, processStat col_data_stats p.1 p.2)))
    else
      .notFound
  else
    .nonNumeric

/-- The `_pandas` metric of
`DataProfilerProfileNumericColumnsDiffBetweenInclusiveThresholdRange`:
the column wildcard is expanded over the numeric columns and every requested
column is processed into the `requested_columns` dictionary. -/
def profileNumericColumnsDiffPandas (profile_diff : ProfileDiff)
    (numeric_columns : List String)
    (limit_check_report_keys : List (String × List (String × Bounds)))
    (numerical_diff_statistics : List String) : List (String × ColResult) :=
  let expanded := replace_generic_operator_in_report_keys
    limit_check_report_keys numeric_columns
  expanded.map (fun p =>
    (p.1, processColumn numeric_columns profile_diff.profile_schema_columns
      profile_diff.data_stats numerical_diff_statistics p.1 p.2))

/-! ### The datasource / data-asset / batch interfaces

Embedding of `great_expectations/experimental/datasources/interfaces.py`.
The execution engine and the profiler are external subsystems (out of scope
per the spec); where a method calls into them the call is embedded as an
explicit function parameter.  The mutual object references between a
`Datasource` and its owned `DataAsset`s are embedded by storing the owning
datasource's name in the asset's private `_datasource` attribute.
-/

/-- A batch request's options dictionary (values reach the code only through
string formatting, so they are embedded as strings). -/
abbrev BatchRequestOptions := List (String × String)

/-- The frozen `BatchRequest` dataclass. -/
structure BatchRequest where
  datasource_name : String
  data_asset_name : String
  options : BatchRequestOptions
deriving DecidableEq

/-- The frozen `BatchSorter` dataclass. -/
structure BatchSorter where
  key : String
  reverse : Bool := false
deriving DecidableEq

/-- Conversion of a string sorter: a leading `-` means the key sorts in
decreasing order, a leading `+` (or no prefix at all) in increasing order.
The source indexes `sort_key[0]`, so it is only ever called on nonempty
strings (`_parse_order_by_sorter` rejects the empty string first); on the
empty string this embedding takes the final branch. -/
def _batch_sorter_from_str (sort_key : String) : BatchSorter :=
  match sort_key.data with
  | '-' :: rest => { key := ⟨rest⟩, reverse := true }
  | '+' :: rest => { key := ⟨rest⟩, reverse := false }
  | _ => { key := sort_key, reverse := false }

/-- The `DataAsset` pydantic model.  The abstract method
`batch_request_options_template` is data a subclass must provide, so it is
embedded as a field holding its result; the private `_datasource` attribute
holds the owning datasource's name once the asset has been added to a
datasource. -/
structure DataAsset where
  name : String
  type : String
  order_by : List BatchSorter := []
  batch_request_options_template : BatchRequestOptions := []
  _datasource : Option String := none
deriving DecidableEq

/-- The check `set(options.keys()).issubset(set(template.keys()))` of
`DataAsset._valid_batch_request_options`. -/
def DataAsset._valid_batch_request_options (a : DataAsset)
    (options : BatchRequestOptions) : Bool :=
  (options.map Prod.fst).all
    (fun k => decide (k ∈ a.batch_request_options_template.map Prod.fst))

/-- `DataAsset.get_batch_request`: raise `BatchRequestError` when `options`
is given but its keys are not a subset of the template's keys, otherwise
build a `BatchRequest` for this asset (`options or {}` yields the empty
dictionary when `options` is `None`; an empty dictionary is already the
empty association list). -/
def DataAsset.get_batch_request (a : DataAsset)
    (options : Option BatchRequestOptions) :
    Except GXError BatchRequest :=
  match options with
  | some opts =>
    if a._valid_batch_request_options opts then
      .ok { datasource_name := a._datasource.getD "",
            data_asset_name := a.name,
            options := opts }
    else
      .error .batchRequestError
  | none =>
    .ok { datasource_name := a._datasource.getD "",
          data_asset_name := a.name,
          options := [] }

/-- The `Datasource` pydantic model: a name, a type tag and the `assets`
dictionary it owns.  The execution engine is external and not embedded. -/
structure Datasource where
  type : String
  name : String
  assets : List (String × DataAsset) := []
deriving DecidableEq

/-- `Datasource.get_asset`: dictionary lookup, re-raising the `KeyError` as a
`LookupError`. -/
def Datasource.get_asset (d : Datasource) (asset_name : String) :
    Except GXError DataAsset :=
  match alookup asset_name d.assets with
  | some a => .ok a
  | none => .error .lookupError

/-- `Datasource.add_asset`: set the asset's `_datasource` back pointer to this
datasource and store the asset in the `assets` dictionary under its name.
The source mutates and returns the asset; this embedding returns the updated
datasource together with the updated asset. -/
def Datasource.add_asset (d : Datasource) (asset : DataAsset) :
    Datasource × DataAsset :=
  let a := { asset with _datasource := some d.name }
  ({ d with assets := dictInsert d.assets asset.name a }, a)

/-- A batch of data.  The `data` handle, the execution engine and the legacy
usage-statistics fields are hooks into external subsystems and are not
embedded; `metadata` values are embedded as `Int` (they are only compared for
sorting). -/
structure Batch where
  datasource : Datasource
  data_asset : DataAsset
  batch_request : BatchRequest
  id : String
  metadata : List (String × Int) := []
deriving DecidableEq

/-- The id computation of the root validator `Batch._set_id`: the datasource
name, the data-asset name and one `f"{k}_{v}"` segment per batch-request
option, joined by `"-"`. -/
def Batch._set_id (datasource_name data_asset_name : String)
    (options : BatchRequestOptions) : String :=
  String.intercalate "-"
    (datasource_name :: data_asset_name ::
      options.map (fun p => p.1 ++ "_" ++ p.2))

/-- Construction of a `Batch`: pydantic runs the `_set_id` root validator, so
the `id` field is always the computed id. -/
def mkBatch (datasource : Datasource) (data_asset : DataAsset)
    (batch_request : BatchRequest) (metadata : List (String × Int)) : Batch :=
  { datasource, data_asset, batch_request,
    id := Batch._set_id datasource.name data_asset.name batch_request.options,
    metadata }

/-- `Datasource.get_batch_list_from_batch_request` delegates to the asset
registered under the request's `data_asset_name`.  The asset-level method is
abstract (backend specific), so it is embedded as the explicit parameter
`impl`. -/
def Datasource.get_batch_list_from_batch_request (d : Datasource)
    (impl : DataAsset → BatchRequest → List Batch)
    (batch_request : BatchRequest) : Except GXError (List Batch) :=
  match d.get_asset batch_request.data_asset_name with
  | .ok data_asset => .ok (impl data_asset batch_request)
  | .error e => .error e

/-- The `metric_domain_kwargs` / `metric_value_kwargs` content of the
`MetricConfiguration` built by `Batch.head` (`n_rows` and `fetch_all` are the
flattened value kwargs). -/
structure MetricConfiguration where
  metric_name : String
  metric_domain_kwargs : List (String × String)
  n_rows : Int
  fetch_all : Bool
deriving DecidableEq

/-- `Batch.head`: for a positive `n_rows` (`if n_rows and n_rows > 0`)
resolve the `table.head` metric for this batch's id through the execution
engine (embedded as the explicit `resolve` parameter); otherwise raise
`BatchError`. -/
def Batch.head {α : Type _} (b : Batch) (resolve : MetricConfiguration → α)
    (n_rows : Int) : Except GXError α :=
  if n_rows ≠ 0 ∧ n_rows > 0 then
    .ok (resolve
      { metric_name := "table.head",
        metric_domain_kwargs := [("batch_id", b.id)],
        n_rows := n_rows,
        fetch_all := false })
  else
    .error .batchError

/-! ### Batch sorting

`DataAsset.sort_batches` runs `batch_list.sort(key=..., reverse=...)` once per
sorter, iterating `reversed(self.order_by)`.  Python's `list.sort` is a stable
sort; it is embedded as a stable insertion sort (`stableSort`), which computes
the same list as any stable sort for a total preorder.  A missing metadata key
raises a `KeyError` (CPython extracts all sort keys before reordering, so the
list is unchanged in that case). -/

/-- Metadata value of a batch at a key, defaulting to `0`; the default is only
reachable when the source would have raised `KeyError`. -/
def getMetaD (b : Batch) (k : String) : Int :=
  (alookup k b.metadata).getD 0

/-- The comparison performed by `list.sort(key=lambda b: b.metadata[s.key],
reverse=s.reverse)`: ascending on the key's metadata value, descending when
`reverse` is set. -/
def sorterLeB (s : BatchSorter) (x y : Batch) : Bool :=
  if s.reverse then decide (getMetaD y s.key ≤ getMetaD x s.key)
  else decide (getMetaD x s.key ≤ getMetaD y s.key)

/-- Stable insertion into a sorted list: the new element goes in front of the
first element it compares less-or-equal to. -/
def insertSorted {α : Type _} (le : α → α → Bool) (a : α) : List α → List α
  | [] => [a]
  | b :: l => if le a b then a :: b :: l else b :: insertSorted le a l

/-- Stable insertion sort, the embedding of Python's stable `list.sort`. -/
def stableSort {α : Type _} (le : α → α → Bool) : List α → List α
  | [] => []
  | a :: l => insertSorted le a (stableSort le l)

/-- Lexicographic order on batches induced by a sorter list: the first sorter
is the most significant key, each key ascending unless its `reverse` flag is
set; `x` strictly below `y` on the key gives `true`, strictly above gives
`false`, and a tie defers to the remaining sorters. -/
def lexLe (sorters : List BatchSorter) (x y : Batch) : Bool :=
  match sorters with
  | [] => true
  | s :: rest =>
    if sorterLeB s x y then
      if sorterLeB s y x then lexLe rest x y else true
    else false

/-- The pure reordering `DataAsset.sort_batches` performs: one stable sort per
sorter, last sorter first (`for sorter in reversed(self.order_by)`). -/
def sortBatchesList : List BatchSorter → List Batch → List Batch
  | [], l => l
  | s :: rest, l => stableSort (sorterLeB s) (sortBatchesList rest l)

/-- `DataAsset.sort_batches` with its `KeyError` path: before each sort, the
key function `lambda b: b.metadata[sorter.key]` must find the sorter's key on
every batch, otherwise the `KeyError` propagates. -/
def sortBatchesE : List BatchSorter → List Batch → Except GXError (List Batch)
  | [], l => .ok l
  | s :: rest, l =>
    match sortBatchesE rest l with
    | .error e => .error e
    | .ok m =>
      if m.all (fun b => (alookup s.key b.metadata).isSome) then
        .ok (stableSort (sorterLeB s) m)
      else
        .error .keyError

/-- `DataAsset.sort_batches`: sort the batch list in the order configured on
this asset. -/
def DataAsset.sort_batches (a : DataAsset) (batch_list : List Batch) :
    Except GXError (List Batch) :=
  sortBatchesE a.order_by batch_list

/-! ### Dictionary lemmas -/

theorem alookup_map_snd {α β : Type _} (f : String → α → β) (k : String) :
    ∀ l : List (String × α),
      alookup k (l.map (fun p => (p.1, f p.1 p.2))) = (alookup k l).map (f k)
  | [] => rfl
  | (k', v) :: rest => by
    by_cases h : k = k'
    · subst h
      simp [alookup]
    · simp [alookup, h, alookup_map_snd f k rest]

theorem alookup_append_of_some {α : Type _} {k : String} {v : α} :
    ∀ {l : List (String × α)} (m : List (String × α)),
      alookup k l = some v → alookup k (l ++ m) = some v
  | [], _, h => by simp [alookup] at h
  | (k', v') :: rest, m, h => by
    by_cases hk : k = k'
    · subst hk
      simp_all [alookup]
    · simp only [alookup, if_neg hk] at h
      simpa [alookup, hk] using alookup_append_of_some m h

theorem alookup_append_of_none {α : Type _} {k : String} :
    ∀ {l : List (String × α)} (m : List (String × α)),
      alookup k l = none → alookup k (l ++ m) = alookup k m
  | [], _, _ => rfl
  | (k', v') :: rest, m, h => by
    by_cases hk : k = k'
    · subst hk
      simp [alookup] at h
    · simp only [alookup, if_neg hk] at h
      simpa [alookup, hk] using alookup_append_of_none m h

theorem alookup_filter_ne_star {α : Type _} {k : String} (hk : k ≠ "*") :
    ∀ l : List (String × α),
      alookup k (l.filter (fun p => p.1 ≠ "*")) = alookup k l
  | [] => rfl
  | (k', v') :: rest => by
    have ih := alookup_filter_ne_star hk rest
    by_cases hs : k' = "*"
    · subst hs
      simp only [List.filter_cons]
      simpa [alookup, hk] using ih
    · by_cases hkk : k = k'
      · subst hkk
        simp [alookup, List.filter_cons, hs]
      · simp only [List.filter_cons]
        simpa [alookup, hs, hkk] using ih

theorem alookup_map_const {α : Type _} (k : String) (v : α) :
    ∀ ks : List String,
      alookup k (ks.map (fun k' => (k', v))) =
        if k ∈ ks then some v else none
  | [] => by simp [alookup]
  | k' :: rest => by
    by_cases h : k = k'
    · subst h
      simp [alookup]
    · simp [alookup, h, alookup_map_const k v rest, Ne.symm h]

theorem alookup_dictInsert_self {α : Type _} (k : String) (v : α) :
    ∀ l : List (String × α), alookup k (dictInsert l k v) = some v
  | [] => by simp [dictInsert, alookup]
  | (k', v') :: rest => by
    by_cases h : k' = k
    · subst h
      simp [dictInsert, alookup]
    · simp [dictInsert, h, alookup, Ne.symm h, alookup_dictInsert_self k v rest]

theorem alookup_dictInsert_ne {α : Type _} {n k : String} (h : n ≠ k) (v : α) :
    ∀ l : List (String × α), alookup n (dictInsert l k v) = alookup n l
  | [] => by simp [dictInsert, alookup, h]
  | (k', v') :: rest => by
    by_cases hk : k' = k
    · subst hk
      simp [dictInsert, alookup, h]
    · by_cases hn : n = k'
      · subst hn
        simp [dictInsert, hk, alookup]
      · simp [dictInsert, hk, alookup, hn, alookup_dictInsert_ne h v rest]

theorem map_fst_dictInsert {α : Type _} (k : String) (v : α) :
    ∀ l : List (String × α),
      (dictInsert l k v).map Prod.fst =
        if (alookup k l).isSome then l.map Prod.fst
        else l.map Prod.fst ++ [k]
  | [] => by simp [dictInsert, alookup]
  | (k', v') :: rest => by
    by_cases h : k' = k
    · subst h
      simp [dictInsert, alookup]
    · simp [dictInsert, h, alookup, Ne.symm h, map_fst_dictInsert k v rest]
      by_cases hrest : (alookup k rest).isSome
      · simp [hrest]
      · simp [hrest]

/-! ### Claims C3, C4, C6, C7, C10 -/

theorem valid_batch_request_options_iff (a : DataAsset)
    (o : BatchRequestOptions) :
    a._valid_batch_request_options o = true ↔
      ∀ k ∈ o.map Prod.fst,
        k ∈ a.batch_request_options_template.map Prod.fst := by
  simp [DataAsset._valid_batch_request_options, List.all_eq_true]

/-- C3: `DataAsset.get_batch_request` raises `BatchRequestError` if and only
if `options` is not `None` and its key set is not a subset of the key set of
`batch_request_options_template()`; otherwise it returns a `BatchRequest`
whose `datasource_name` is the owning datasource's name, whose
`data_asset_name` is this asset's name, and whose `options` field is the
given options dictionary (the empty dictionary when `options` is `None` or
empty). -/
theorem c3_get_batch_request (a : DataAsset) (dn : String)
    (hds : a._datasource = some dn) (options : Option BatchRequestOptions) :
    (DataAsset.get_batch_request a options = .error .batchRequestError ↔
      ∃ o, options = some o ∧
        ¬ ∀ k ∈ o.map Prod.fst,
            k ∈ a.batch_request_options_template.map Prod.fst) ∧
    (∀ br, DataAsset.get_batch_request a options = .ok br →
      br.datasource_name = dn ∧ br.data_asset_name = a.name ∧
      br.options = options.getD []) := by
  constructor
  · cases options with
    | none => simp [DataAsset.get_batch_request]
    | some o =>
      by_cases h : a._valid_batch_request_options o = true
      · simp only [DataAsset.get_batch_request, if_pos h]
        constructor
        · intro hcontra
          exact absurd hcontra (by simp)
        · rintro ⟨o', ho', hnot⟩
          cases ho'
          exact absurd ((valid_batch_request_options_iff a o).mp h) hnot
      · simp only [DataAsset.get_batch_request, if_neg h]
        constructor
        · intro _
          exact ⟨o, rfl, fun hsub =>
            h ((valid_batch_request_options_iff a o).mpr hsub)⟩
        · intro _
          trivial
  · intro br hbr
    cases options with
    | none =>
      simp only [DataAsset.get_batch_request] at hbr
      cases hbr
      simp [hds]
    | some o =>
      by_cases h : a._valid_batch_request_options o = true
      · simp only [DataAsset.get_batch_request, if_pos h] at hbr
        cases hbr
        simp [hds]
      · simp [DataAsset.get_batch_request, if_neg h] at hbr

theorem c3_witness :
    DataAsset.get_batch_request
        { name := "tbl", type := "table",
          batch_request_options_template := [("year", "")],
          _datasource := some "ds" }
        (some [("month", "1")]) = .error .batchRequestError ∧
    ({ datasource_name := "ds", data_asset_name := "tbl",
       options := [("year", "2020")] } : BatchRequest).datasource_name = "ds" ∧
    ({ datasource_name := "ds", data_asset_name := "tbl",
       options := [("year", "2020")] } : BatchRequest).data_asset_name = "tbl" ∧
    ({ datasource_name := "ds", data_asset_name := "tbl",
       options := [("year", "2020")] } : BatchRequest).options =
      (some [("year", "2020")] : Option BatchRequestOptions).getD [] :=
  ⟨(c3_get_batch_request
      { name := "tbl", type := "table",
        batch_request_options_template := [("year", "")],
        _datasource := some "ds" } "ds" rfl (some [("month", "1")])).1.mpr
      ⟨[("month", "1")], rfl, by decide⟩,
    (c3_get_batch_request
      { name := "tbl", type := "table",
        batch_request_options_template := [("year", "")],
        _datasource := some "ds" } "ds" rfl (some [("year", "2020")])).2
      { datasource_name := "ds", data_asset_name := "tbl",
        options := [("year", "2020")] } rfl⟩

/-- C4: `Datasource.get_batch_list_from_batch_request` returns exactly the
list produced by calling `get_batch_list_from_batch_request` on the data
asset registered under `batch_request.data_asset_name`; when no asset of that
name is registered it raises `LookupError`. -/
theorem c4_get_batch_list_delegates (d : Datasource)
    (impl : DataAsset → BatchRequest → List Batch) (br : BatchRequest) :
    (∀ a, alookup br.data_asset_name d.assets = some a →
      d.get_batch_list_from_batch_request impl br = .ok (impl a br)) ∧
    (alookup br.data_asset_name d.assets = none →
      d.get_batch_list_from_batch_request impl br = .error .lookupError) := by
  constructor
  · intro a ha
    simp [Datasource.get_batch_list_from_batch_request, Datasource.get_asset,
      ha]
  · intro h
    simp [Datasource.get_batch_list_from_batch_request, Datasource.get_asset,
      h]

theorem c4_witness :
    Datasource.get_batch_list_from_batch_request
        { type := "pandas", name := "ds",
          assets := [("tbl", { name := "tbl", type := "table" })] }
        (fun _ _ => [])
        { datasource_name := "ds", data_asset_name := "tbl", options := [] } =
      .ok [] ∧
    Datasource.get_batch_list_from_batch_request
        { type := "pandas", name := "ds", assets := [] }
        (fun _ _ => [])
        { datasource_name := "ds", data_asset_name := "tbl", options := [] } =
      .error .lookupError :=
  ⟨(c4_get_batch_list_delegates
      { type := "pandas", name := "ds",
        assets := [("tbl", { name := "tbl", type := "table" })] }
      (fun _ _ => [])
      { datasource_name := "ds", data_asset_name := "tbl", options := [] }).1
      { name := "tbl", type := "table" } rfl,
    (c4_get_batch_list_delegates
      { type := "pandas", name := "ds", assets := [] }
      (fun _ _ => [])
      { datasource_name := "ds", data_asset_name := "tbl",
        options := [] }).2 rfl⟩

/-- C6: every `Batch`'s id is computed at construction as the datasource
name, the data asset name, and one `key_value` segment per batch-request
option, joined by `-`; consequently two batches built from equal datasource
names, equal asset names and equal options receive equal ids. -/
theorem c6_batch_id (ds ds' : Datasource) (da da' : DataAsset)
    (br br' : BatchRequest) (md md' : List (String × Int)) :
    (mkBatch ds da br md).id =
      String.intercalate "-"
        (ds.name :: da.name :: br.options.map (fun p => p.1 ++ "_" ++ p.2)) ∧
    (ds.name = ds'.name → da.name = da'.name → br.options = br'.options →
      (mkBatch ds da br md).id = (mkBatch ds' da' br' md').id) := by
  refine ⟨rfl, ?_⟩
  intro h1 h2 h3
  simp [mkBatch, Batch._set_id, h1, h2, h3]

theorem c6_witness :
    (mkBatch { type := "pandas", name := "ds" } { name := "tbl", type := "table" }
        { datasource_name := "ds", data_asset_name := "tbl",
          options := [("year", "2020")] } []).id =
      String.intercalate "-"
        ("ds" :: "tbl" ::
          ([("year", "2020")] : BatchRequestOptions).map
            (fun p => p.1 ++ "_" ++ p.2)) ∧
    (mkBatch { type := "pandas", name := "ds" } { name := "tbl", type := "table" }
        { datasource_name := "ds", data_asset_name := "tbl",
          options := [("year", "2020")] } []).id =
      (mkBatch { type := "sql", name := "ds" } { name := "tbl", type := "query" }
        { datasource_name := "other", data_asset_name := "x",
          options := [("year", "2020")] } [("n", 1)]).id :=
  ⟨(c6_batch_id { type := "pandas", name := "ds" } { type := "sql", name := "ds" }
      { name := "tbl", type := "table" } { name := "tbl", type := "query" }
      { datasource_name := "ds", data_asset_name := "tbl",
        options := [("year", "2020")] }
      { datasource_name := "other", data_asset_name := "x",
        options := [("year", "2020")] } [] [("n", 1)]).1,
    (c6_batch_id { type := "pandas", name := "ds" } { type := "sql", name := "ds" }
      { name := "tbl", type := "table" } { name := "tbl", type := "query" }
      { datasource_name := "ds", data_asset_name := "tbl",
        options := [("year", "2020")] }
      { datasource_name := "other", data_asset_name := "x",
        options := [("year", "2020")] } [] [("n", 1)]).2 rfl rfl rfl⟩

/-- C7: after `d.add_asset(a)` the asset is owned by the datasource:
`get_asset a.name` returns the added asset and the asset's `_datasource`
back pointer names `d`; adding an asset whose name equals an
already-registered asset's name replaces that entry in place, and no other
entry of `d.assets` is changed by the addition. -/
theorem c7_add_asset (d : Datasource) (asset : DataAsset) :
    (d.add_asset asset).1.get_asset asset.name = .ok (d.add_asset asset).2 ∧
    ((d.add_asset asset).2)._datasource = some d.name ∧
    (d.add_asset asset).2.name = asset.name ∧
    (∀ n, n ≠ asset.name →
      alookup n (d.add_asset asset).1.assets = alookup n d.assets) ∧
    (d.add_asset asset).1.assets.map Prod.fst =
      (if (alookup asset.name d.assets).isSome then d.assets.map Prod.fst
       else d.assets.map Prod.fst ++ [asset.name]) := by
  refine ⟨?_, rfl, rfl, ?_, ?_⟩
  · simp [Datasource.add_asset, Datasource.get_asset,
      alookup_dictInsert_self]
  · intro n hn
    simp [Datasource.add_asset, alookup_dictInsert_ne hn]
  · simp [Datasource.add_asset, map_fst_dictInsert]

theorem c7_witness :
    (Datasource.add_asset
        { type := "pandas", name := "ds",
          assets := [("tbl", { name := "tbl", type := "old" }),
                     ("csv", { name := "csv", type := "csv" })] }
        { name := "tbl", type := "table" }).1.get_asset "tbl" =
      .ok { name := "tbl", type := "table", _datasource := some "ds" } ∧
    alookup "csv"
        (Datasource.add_asset
          { type := "pandas", name := "ds",
            assets := [("tbl", { name := "tbl", type := "old" }),
                       ("csv", { name := "csv", type := "csv" })] }
          { name := "tbl", type := "table" }).1.assets =
      alookup "csv"
        [("tbl", ({ name := "tbl", type := "old" } : DataAsset)),
         ("csv", { name := "csv", type := "csv" })] :=
  ⟨(c7_add_asset
      { type := "pandas", name := "ds",
        assets := [("tbl", { name := "tbl", type := "old" }),
                   ("csv", { name := "csv", type := "csv" })] }
      { name := "tbl", type := "table" }).1,
    (c7_add_asset
      { type := "pandas", name := "ds",
        assets := [("tbl", { name := "tbl", type := "old" }),
                   ("csv", { name := "csv", type := "csv" })] }
      { name := "tbl", type := "table" }).2.2.2.1 "csv" (by decide)⟩

/-- C10: `Batch.head n_rows` raises `BatchError` exactly when `n_rows` is not
a positive integer (including the boundary case `n_rows = 0`); for every
positive `n_rows` it returns the resolved `table.head` metric value for this
batch's id. -/
theorem c10_head {α : Type _} (b : Batch) (resolve : MetricConfiguration → α)
    (n_rows : Int) :
    (b.head resolve n_rows = .error .batchError ↔ n_rows ≤ 0) ∧
    (0 < n_rows → b.head resolve n_rows =
      .ok (resolve
        { metric_name := "table.head",
          metric_domain_kwargs := [("batch_id", b.id)],
          n_rows := n_rows,
          fetch_all := false })) ∧
    b.head resolve 0 = .error .batchError := by
  refine ⟨?_, ?_, ?_⟩
  · by_cases h : n_rows ≠ 0 ∧ n_rows > 0
    · simp only [Batch.head, if_pos h]
      constructor
      · intro hcontra
        exact absurd hcontra (by simp)
      · intro hle
        omega
    · simp only [Batch.head, if_neg h]
      constructor
      · intro _
        omega
      · intro _
        trivial
  · intro hn
    have h : n_rows ≠ 0 ∧ n_rows > 0 := by omega
    simp [Batch.head, if_pos h]
  · rfl

theorem c10_witness :
    Batch.head
        (mkBatch { type := "pandas", name := "ds" }
          { name := "tbl", type := "table" }
          { datasource_name := "ds", data_asset_name := "tbl", options := [] }
          [])
        (fun c => c.metric_name) 3 =
      .ok "table.head" ∧
    Batch.head
        (mkBatch { type := "pandas", name := "ds" }
          { name := "tbl", type := "table" }
          { datasource_name := "ds", data_asset_name := "tbl", options := [] }
          [])
        (fun c => c.metric_name) 0 =
      .error .batchError :=
  ⟨(c10_head
      (mkBatch { type := "pandas", name := "ds" }
        { name := "tbl", type := "table" }
        { datasource_name := "ds", data_asset_name := "tbl", options := [] }
        [])
      (fun c => c.metric_name) 3).2.1 (by decide),
    (c10_head
      (mkBatch { type := "pandas", name := "ds" }
        { name := "tbl", type := "table" }
        { datasource_name := "ds", data_asset_name := "tbl", options := [] }
        [])
      (fun c => c.metric_name) 0).2.2⟩

/-! ### Claims C1, C2, C8, C9 -/

theorem alookup_profile_metric (pd : ProfileDiff) (ncols : List String)
    (lcrk : List (String × List (String × Bounds))) (nds : List String)
    {col : String} {colStats : List (String × Bounds)}
    (hcol : alookup col (replace_generic_operator_in_report_keys lcrk ncols) =
      some colStats) :
    alookup col (profileNumericColumnsDiffPandas pd ncols lcrk nds) =
      some (processColumn ncols pd.profile_schema_columns pd.data_stats nds
        col colStats) := by
  simp only [profileNumericColumnsDiffPandas]
  rw [alookup_map_snd
    (fun c s => processColumn ncols pd.profile_schema_columns pd.data_stats
      nds c s) col _, hcol]
  rfl

theorem processStat_of_num {cds : List (String × StatVal)} {stat : String}
    {v : Rat} (hval : alookup stat cds = some (.num v)) (b : Bounds) :
    processStat cds stat b =
      (if b.lower ≤ v ∧ v ≤ b.upper then .pass
       else .fail b.lower b.upper v) := by
  simp [processStat, hval, is_value_between_bounds]

theorem processStat_of_unchanged {cds : List (String × StatVal)}
    {stat : String} (hval : alookup stat cds = some .unchanged) (b : Bounds) :
    processStat cds stat b =
      (if b.lower ≤ (0 : Rat) ∧ (0 : Rat) ≤ b.upper then .pass
       else .fail b.lower b.upper 0) := by
  simp [processStat, hval, is_value_between_bounds]

/-- C1: for every requested (column, statistic) pair whose column is numeric
and present in the profile schema and whose statistic is present in that
column's diff statistics, the `_pandas` metric reports the pair as passing
(`True`) if and only if the reported delta `v` satisfies
`lower ≤ v ≤ upper`, both bounds inclusive; when `v` is outside the range the
result for that pair is instead a record of the lower bound, the upper bound
and the value found. -/
theorem c1_pandas_inclusive_range (pd : ProfileDiff) (ncols : List String)
    (lcrk : List (String × List (String × Bounds))) (nds : List String)
    (col stat : String) (colStats : List (String × Bounds)) (b : Bounds)
    (v : Rat)
    (hcol : alookup col (replace_generic_operator_in_report_keys lcrk ncols) =
      some colStats)
    (hnum : col ∈ ncols)
    (hschema : col ∈ pd.profile_schema_columns)
    (hstat : alookup stat
      (replace_generic_operator_in_report_keys colStats nds) = some b)
    (hval : alookup stat (findColStats pd.data_stats col) = some (.num v)) :
    ∃ m, alookup col (profileNumericColumnsDiffPandas pd ncols lcrk nds) =
        some (.stats m) ∧
      ((alookup stat m = some .pass) ↔ (b.lower ≤ v ∧ v ≤ b.upper)) ∧
      (¬(b.lower ≤ v ∧ v ≤ b.upper) →
        alookup stat m = some (.fail b.lower b.upper v)) := by
  have hm := alookup_profile_metric pd ncols lcrk nds hcol
  rw [processColumn, if_pos hnum, if_pos hschema] at hm
  refine ⟨_, hm, ?_, ?_⟩
  · rw [alookup_map_snd (processStat (findColStats pd.data_stats col)) stat _,
      hstat, Option.map_some', processStat_of_num hval]
    by_cases hbet : b.lower ≤ v ∧ v ≤ b.upper
    · simp [hbet]
    · simp [hbet]
  · intro hbet
    rw [alookup_map_snd (processStat (findColStats pd.data_stats col)) stat _,
      hstat, Option.map_some', processStat_of_num hval, if_neg hbet]

theorem c1_witness :
    ∃ m, alookup "c"
        (profileNumericColumnsDiffPandas
          { profile_schema_columns := ["c"],
            data_stats := [{ column_name := "c",
                             statistics := [("min", .num 2)] }] }
          ["c"] [("c", [("min", { lower := 0, upper := 5 })])] ["min"]) =
        some (.stats m) ∧
      ((alookup "min" m = some .pass) ↔
        (({ lower := 0, upper := 5 } : Bounds).lower ≤ (2 : Rat) ∧
          (2 : Rat) ≤ ({ lower := 0, upper := 5 } : Bounds).upper)) ∧
      (¬(({ lower := 0, upper := 5 } : Bounds).lower ≤ (2 : Rat) ∧
          (2 : Rat) ≤ ({ lower := 0, upper := 5 } : Bounds).upper) →
        alookup "min" m =
          some (.fail ({ lower := 0, upper := 5 } : Bounds).lower
            ({ lower := 0, upper := 5 } : Bounds).upper 2)) :=
  c1_pandas_inclusive_range
    { profile_schema_columns := ["c"],
      data_stats := [{ column_name := "c",
                       statistics := [("min", .num 2)] }] }
    ["c"] [("c", [("min", { lower := 0, upper := 5 })])] ["min"]
    "c" "min" [("min", { lower := 0, upper := 5 })]
    { lower := 0, upper := 5 } 2
    (by decide) (by decide) (by decide) (by decide) (by decide)

/-- C2: in `limit_check_report_keys`, a `"*"` key applies its entry to every
requested key (numeric column, respectively statistic drawn from
`numerical_diff_statistics`) that has no explicit key, while for every key
that does have an explicit entry the explicit entry is the one kept, taking
precedence over the wildcard entry.  The statement is generic in the entry
type, covering both the column level (entries are statistics-and-bounds
dictionaries, requested keys are the numeric columns) and the statistic level
(entries are bounds, requested keys are `numerical_diff_statistics`). -/
theorem c2_wildcard_expansion {α : Type _} (report_keys : List (String × α))
    (requested_keys : List String) (k : String) (v star : α) :
    (alookup k report_keys = some v → k ≠ "*" →
      alookup k (replace_generic_operator_in_report_keys report_keys
        requested_keys) = some v) ∧
    (alookup k report_keys = none → alookup "*" report_keys = some star →
      k ∈ requested_keys →
      alookup k (replace_generic_operator_in_report_keys report_keys
        requested_keys) = some star) := by
  constructor
  · intro hv hk
    cases hstar : alookup "*" report_keys with
    | none => simpa [replace_generic_operator_in_report_keys, hstar] using hv
    | some g =>
      simp only [replace_generic_operator_in_report_keys, hstar]
      exact alookup_append_of_some _
        (by rw [alookup_filter_ne_star hk]; exact hv)
  · intro hnone hstar hmem
    have hk : k ≠ "*" := by
      intro h
      rw [h, hstar] at hnone
      cases hnone
    simp only [replace_generic_operator_in_report_keys, hstar]
    rw [alookup_append_of_none _
      (by rw [alookup_filter_ne_star hk]; exact hnone)]
    rw [alookup_map_const]
    have hmem' : k ∈ requested_keys.filter
        (fun k' => (alookup k' report_keys).isNone) := by
      rw [List.mem_filter]
      exact ⟨hmem, by simp [hnone]⟩
    rw [if_pos hmem']

theorem c2_witness :
    alookup "a"
        (replace_generic_operator_in_report_keys
          [("a", [("min", ({ lower := 0, upper := 1 } : Bounds))]),
           ("*", [("max", { lower := 2, upper := 3 })])] ["a", "b"]) =
      some [("min", { lower := 0, upper := 1 })] ∧
    alookup "b"
        (replace_generic_operator_in_report_keys
          [("a", [("min", ({ lower := 0, upper := 1 } : Bounds))]),
           ("*", [("max", { lower := 2, upper := 3 })])] ["a", "b"]) =
      some [("max", { lower := 2, upper := 3 })] :=
  ⟨(c2_wildcard_expansion
      [("a", [("min", ({ lower := 0, upper := 1 } : Bounds))]),
       ("*", [("max", { lower := 2, upper := 3 })])] ["a", "b"] "a"
      [("min", { lower := 0, upper := 1 })]
      [("max", { lower := 2, upper := 3 })]).1 (by decide) (by decide),
    (c2_wildcard_expansion
      [("a", [("min", ({ lower := 0, upper := 1 } : Bounds))]),
       ("*", [("max", { lower := 2, upper := 3 })])] ["a", "b"] "b"
      [("min", { lower := 0, upper := 1 })]
      [("max", { lower := 2, upper := 3 })]).2 (by decide) (by decide)
      (by decide)⟩

/-- C8: if the diff report records the string `"unchanged"` for a requested
statistic of a numeric column, the metric treats the delta as `0` before the
bounds comparison, so the pair passes exactly when `lower ≤ 0 ≤ upper` and
fails (reporting `value_found` `0`) against any bounds range that excludes
zero. -/
theorem c8_unchanged_is_zero (pd : ProfileDiff) (ncols : List String)
    (lcrk : List (String × List (String × Bounds))) (nds : List String)
    (col stat : String) (colStats : List (String × Bounds)) (b : Bounds)
    (hcol : alookup col (replace_generic_operator_in_report_keys lcrk ncols) =
      some colStats)
    (hnum : col ∈ ncols)
    (hschema : col ∈ pd.profile_schema_columns)
    (hstat : alookup stat
      (replace_generic_operator_in_report_keys colStats nds) = some b)
    (hval : alookup stat (findColStats pd.data_stats col) = some .unchanged) :
    ∃ m, alookup col (profileNumericColumnsDiffPandas pd ncols lcrk nds) =
        some (.stats m) ∧
      ((alookup stat m = some .pass) ↔
        (b.lower ≤ (0 : Rat) ∧ (0 : Rat) ≤ b.upper)) ∧
      (¬(b.lower ≤ (0 : Rat) ∧ (0 : Rat) ≤ b.upper) →
        alookup stat m = some (.fail b.lower b.upper 0)) := by
  have hm := alookup_profile_metric pd ncols lcrk nds hcol
  rw [processColumn, if_pos hnum, if_pos hschema] at hm
  refine ⟨_, hm, ?_, ?_⟩
  · rw [alookup_map_snd (processStat (findColStats pd.data_stats col)) stat _,
      hstat, Option.map_some', processStat_of_unchanged hval]
    by_cases hbet : b.lower ≤ (0 : Rat) ∧ (0 : Rat) ≤ b.upper
    · simp [hbet]
    · simp [hbet]
  · intro hbet
    rw [alookup_map_snd (processStat (findColStats pd.data_stats col)) stat _,
      hstat, Option.map_some', processStat_of_unchanged hval, if_neg hbet]

theorem c8_witness :
    ∃ m, alookup "c"
        (profileNumericColumnsDiffPandas
          { profile_schema_columns := ["c"],
            data_stats := [{ column_name := "c",
                             statistics := [("min", .unchanged)] }] }
          ["c"] [("c", [("min", { lower := 1, upper := 5 })])] ["min"]) =
        some (.stats m) ∧
      ((alookup "min" m = some .pass) ↔
        (({ lower := 1, upper := 5 } : Bounds).lower ≤ (0 : Rat) ∧
          (0 : Rat) ≤ ({ lower := 1, upper := 5 } : Bounds).upper)) ∧
      (¬(({ lower := 1, upper := 5 } : Bounds).lower ≤ (0 : Rat) ∧
          (0 : Rat) ≤ ({ lower := 1, upper := 5 } : Bounds).upper) →
        alookup "min" m =
          some (.fail ({ lower := 1, upper := 5 } : Bounds).lower
            ({ lower := 1, upper := 5 } : Bounds).upper 0)) :=
  c8_unchanged_is_zero
    { profile_schema_columns := ["c"],
      data_stats := [{ column_name := "c",
                       statistics := [("min", .unchanged)] }] }
    ["c"] [("c", [("min", { lower := 1, upper := 5 })])] ["min"]
    "c" "min" [("min", { lower := 1, upper := 5 })]
    { lower := 1, upper := 5 }
    (by decide) (by decide) (by decide) (by decide) (by decide)

/-- C9: requested entries that cannot be bounds-checked yield marker values
instead of aborting: a requested column not in the numeric-columns list is
reported non-numeric for the whole column, and since this check runs before
the profile-schema check it also wins for a column that is both non-numeric
and absent from the schema; a numeric column absent from the profile schema
is reported not found; a requested statistic absent from that column's diff
statistics is reported not found for that statistic; and every requested
column still receives a result. -/
theorem c9_marker_values (pd : ProfileDiff) (ncols : List String)
    (lcrk : List (String × List (String × Bounds))) (nds : List String)
    (col : String) :
    (∀ colStats,
      alookup col (replace_generic_operator_in_report_keys lcrk ncols) =
        some colStats →
      col ∉ ncols →
      alookup col (profileNumericColumnsDiffPandas pd ncols lcrk nds) =
        some .nonNumeric) ∧
    (∀ colStats,
      alookup col (replace_generic_operator_in_report_keys lcrk ncols) =
        some colStats →
      col ∈ ncols → col ∉ pd.profile_schema_columns →
      alookup col (profileNumericColumnsDiffPandas pd ncols lcrk nds) =
        some .notFound) ∧
    (∀ colStats stat b,
      alookup col (replace_generic_operator_in_report_keys lcrk ncols) =
        some colStats →
      col ∈ ncols → col ∈ pd.profile_schema_columns →
      alookup stat (replace_generic_operator_in_report_keys colStats nds) =
        some b →
      alookup stat (findColStats pd.data_stats col) = none →
      ∃ m, alookup col (profileNumericColumnsDiffPandas pd ncols lcrk nds) =
          some (.stats m) ∧
        alookup stat m = some .statNotFound) ∧
    (∀ colStats,
      alookup col (replace_generic_operator_in_report_keys lcrk ncols) =
        some colStats →
      (alookup col (profileNumericColumnsDiffPandas pd ncols lcrk nds)).isSome) := by
  refine ⟨?_, ?_, ?_, ?_⟩
  · intro colStats hcol hnum
    rw [alookup_profile_metric pd ncols lcrk nds hcol, processColumn,
      if_neg hnum]
  · intro colStats hcol hnum hschema
    rw [alookup_profile_metric pd ncols lcrk nds hcol, processColumn,
      if_pos hnum, if_neg hschema]
  · intro colStats stat b hcol hnum hschema hstat hval
    have hm := alookup_profile_metric pd ncols lcrk nds hcol
    rw [processColumn, if_pos hnum, if_pos hschema] at hm
    refine ⟨_, hm, ?_⟩
    rw [alookup_map_snd (processStat (findColStats pd.data_stats col)) stat _,
      hstat, Option.map_some']
    simp [processStat, hval]
  · intro colStats hcol
    rw [alookup_profile_metric pd ncols lcrk nds hcol]
    rfl

theorem c9_witness :
    alookup "w"
        (profileNumericColumnsDiffPandas
          { profile_schema_columns := ["n"], data_stats := [] }
          ["c", "n"]
          [("w", [("min", { lower := 0, upper := 1 })]),
           ("c", [("min", { lower := 0, upper := 1 })]),
           ("n", [("min", { lower := 0, upper := 1 })])] ["min"]) =
      some .nonNumeric ∧
    alookup "c"
        (profileNumericColumnsDiffPandas
          { profile_schema_columns := ["n"], data_stats := [] }
          ["c", "n"]
          [("w", [("min", { lower := 0, upper := 1 })]),
           ("c", [("min", { lower := 0, upper := 1 })]),
           ("n", [("min", { lower := 0, upper := 1 })])] ["min"]) =
      some .notFound ∧
    (∃ m, alookup "n"
        (profileNumericColumnsDiffPandas
          { profile_schema_columns := ["n"], data_stats := [] }
          ["c", "n"]
          [("w", [("min", { lower := 0, upper := 1 })]),
           ("c", [("min", { lower := 0, upper := 1 })]),
           ("n", [("min", { lower := 0, upper := 1 })])] ["min"]) =
        some (.stats m) ∧
      alookup "min" m = some .statNotFound) :=
  ⟨(c9_marker_values { profile_schema_columns := ["n"], data_stats := [] }
      ["c", "n"]
      [("w", [("min", { lower := 0, upper := 1 })]),
       ("c", [("min", { lower := 0, upper := 1 })]),
       ("n", [("min", { lower := 0, upper := 1 })])] ["min"] "w").1
      [("min", { lower := 0, upper := 1 })] (by decide) (by decide),
    (c9_marker_values { profile_schema_columns := ["n"], data_stats := [] }
      ["c", "n"]
      [("w", [("min", { lower := 0, upper := 1 })]),
       ("c", [("min", { lower := 0, upper := 1 })]),
       ("n", [("min", { lower := 0, upper := 1 })])] ["min"] "c").2.1
      [("min", { lower := 0, upper := 1 })] (by decide) (by decide)
      (by decide),
    (c9_marker_values { profile_schema_columns := ["n"], data_stats := [] }
      ["c", "n"]
      [("w", [("min", { lower := 0, upper := 1 })]),
       ("c", [("min", { lower := 0, upper := 1 })]),
       ("n", [("min", { lower := 0, upper := 1 })])] ["min"] "n").2.2.1
      [("min", { lower := 0, upper := 1 })] "min"
      { lower := 0, upper := 1 } (by decide) (by decide) (by decide)
      (by decide) (by decide)⟩

/-! ### Claim C5: sorting -/

theorem perm_insertSorted {α : Type _} (le : α → α → Bool) (a : α) :
    ∀ l : List α, List.Perm (insertSorted le a l) (a :: l)
  | [] => List.Perm.refl _
  | b :: l => by
    by_cases h : le a b = true
    · rw [insertSorted, if_pos h]
    · rw [insertSorted, if_neg h]
      exact (List.Perm.cons b (perm_insertSorted le a l)).trans
        (List.Perm.swap a b l)

theorem perm_stableSort {α : Type _} (le : α → α → Bool) :
    ∀ l : List α, List.Perm (stableSort le l) l
  | [] => List.Perm.refl _
  | a :: l =>
    (perm_insertSorted le a (stableSort le l)).trans
      (List.Perm.cons a (perm_stableSort le l))

theorem pairwise_insertSorted {α : Type _} {le : α → α → Bool}
    {R : α → α → Prop}
    (htrans : ∀ x y z, le x y = true → le y z = true → le x z = true)
    (htot : ∀ x y, le x y = true ∨ le y x = true) (a : α) :
    ∀ l : List α,
      l.Pairwise (fun x y => le x y = true ∧ (le y x = true → R x y)) →
      (∀ b ∈ l, R a b) →
      (insertSorted le a l).Pairwise
        (fun x y => le x y = true ∧ (le y x = true → R x y)) := by
  intro l
  induction l with
  | nil =>
    intro _ _
    exact List.pairwise_singleton _ a
  | cons b l ih =>
    intro hbl ha
    rcases List.pairwise_cons.mp hbl with ⟨hb, hl⟩
    by_cases h : le a b = true
    · rw [insertSorted, if_pos h]
      refine List.Pairwise.cons ?_ hbl
      intro c hc
      rcases List.mem_cons.mp hc with rfl | hc
      · exact ⟨h, fun _ => ha c (List.mem_cons_self c l)⟩
      · exact ⟨htrans a b c h (hb c hc).1,
          fun _ => ha c (List.mem_cons_of_mem b hc)⟩
    · rw [insertSorted, if_neg h]
      refine List.Pairwise.cons ?_
        (ih hl (fun c hc => ha c (List.mem_cons_of_mem b hc)))
      intro c hc
      have hc' : c = a ∨ c ∈ l := by
        have hmem := (perm_insertSorted le a l).mem_iff.mp hc
        simpa using hmem
      rcases hc' with rfl | hc'
      · refine ⟨?_, fun hab => absurd hab h⟩
        rcases htot c b with hcb | hbc
        · exact absurd hcb h
        · exact hbc
      · exact hb c hc'

theorem pairwise_stableSort {α : Type _} {le : α → α → Bool}
    {R : α → α → Prop}
    (htrans : ∀ x y z, le x y = true → le y z = true → le x z = true)
    (htot : ∀ x y, le x y = true ∨ le y x = true) :
    ∀ l : List α, l.Pairwise R →
      (stableSort le l).Pairwise
        (fun x y => le x y = true ∧ (le y x = true → R x y)) := by
  intro l
  induction l with
  | nil =>
    intro _
    exact List.Pairwise.nil
  | cons a l ih =>
    intro hal
    rcases List.pairwise_cons.mp hal with ⟨ha, hl⟩
    rw [stableSort]
    exact pairwise_insertSorted htrans htot a (stableSort le l) (ih hl)
      (fun b hb => ha b ((perm_stableSort le l).mem_iff.mp hb))

theorem sorterLeB_trans (s : BatchSorter) (x y z : Batch)
    (h1 : sorterLeB s x y = true) (h2 : sorterLeB s y z = true) :
    sorterLeB s x z = true := by
  by_cases hr : s.reverse = true
  · simp only [sorterLeB, hr, if_true, decide_eq_true_eq] at h1 h2 ⊢
    exact le_trans h2 h1
  · simp only [sorterLeB, hr, if_false, Bool.false_eq_true,
      decide_eq_true_eq] at h1 h2 ⊢
    exact le_trans h1 h2

theorem sorterLeB_total (s : BatchSorter) (x y : Batch) :
    sorterLeB s x y = true ∨ sorterLeB s y x = true := by
  by_cases hr : s.reverse = true
  · simp only [sorterLeB, hr, if_true, decide_eq_true_eq]
    exact Int.le_total _ _
  · simp only [sorterLeB, hr, if_false, Bool.false_eq_true,
      decide_eq_true_eq]
    exact Int.le_total _ _

theorem lexLe_step (s : BatchSorter) (rest : List BatchSorter) {x y : Batch}
    (h1 : sorterLeB s x y = true)
    (h2 : sorterLeB s y x = true → lexLe rest x y = true) :
    lexLe (s :: rest) x y = true := by
  rw [lexLe, if_pos h1]
  by_cases h : sorterLeB s y x = true
  · rw [if_pos h]
    exact h2 h
  · rw [if_neg h]

theorem pairwise_trivial {α : Type _} (l : List α) :
    l.Pairwise (fun _ _ => (True : Prop)) := by
  induction l with
  | nil => exact List.Pairwise.nil
  | cons a l ih => exact List.Pairwise.cons (fun _ _ => trivial) ih

theorem pairwise_lex_sortBatchesList :
    ∀ (sorters : List BatchSorter) (l : List Batch),
      (sortBatchesList sorters l).Pairwise
        (fun x y => lexLe sorters x y = true)
  | [], l => by
    rw [sortBatchesList]
    exact (pairwise_trivial l).imp (fun _ => rfl)
  | s :: rest, l => by
    rw [sortBatchesList]
    have h := pairwise_stableSort (sorterLeB_trans s) (sorterLeB_total s)
      (sortBatchesList rest l) (pairwise_lex_sortBatchesList rest l)
    exact h.imp (fun hxy => lexLe_step s rest hxy.1 hxy.2)

theorem perm_sortBatchesList :
    ∀ (sorters : List BatchSorter) (l : List Batch),
      List.Perm (sortBatchesList sorters l) l
  | [], _ => List.Perm.refl _
  | s :: rest, l =>
    (perm_stableSort (sorterLeB s) (sortBatchesList rest l)).trans
      (perm_sortBatchesList rest l)

theorem sortBatchesE_ok :
    ∀ (sorters : List BatchSorter) (l : List Batch),
      (∀ b ∈ l, ∀ s ∈ sorters, (alookup s.key b.metadata).isSome) →
      sortBatchesE sorters l = .ok (sortBatchesList sorters l)
  | [], l, _ => rfl
  | s :: rest, l, h => by
    rw [sortBatchesE,
      sortBatchesE_ok rest l
        (fun b hb s' hs' => h b hb s' (List.mem_cons_of_mem s hs'))]
    have hall : (sortBatchesList rest l).all
        (fun b => (alookup s.key b.metadata).isSome) = true := by
      rw [List.all_eq_true]
      intro b hb
      exact h b ((perm_sortBatchesList rest l).mem_iff.mp hb) s
        (List.mem_cons_self s rest)
    simp [hall, sortBatchesList]

/-- C5: `DataAsset.sort_batches` reorders the given batch list so that the
batches are ordered lexicographically by the metadata values at the keys
listed in `order_by`, with `order_by[0]` the most significant key, each key
ascending unless that sorter's `reverse` flag is set; and a string sorter
`-k` parses to key `k` descending, while `+k` or a bare `k` parses to key `k`
ascending. -/
theorem c5_sort_batches (a : DataAsset) (l : List Batch)
    (hkeys : ∀ b ∈ l, ∀ s ∈ a.order_by, (alookup s.key b.metadata).isSome) :
    (∃ m, a.sort_batches l = .ok m ∧ List.Perm m l ∧
      m.Pairwise (fun x y => lexLe a.order_by x y = true)) ∧
    (∀ k : String,
      _batch_sorter_from_str ⟨'-' :: k.data⟩ = { key := k, reverse := true } ∧
      _batch_sorter_from_str ⟨'+' :: k.data⟩ =
        { key := k, reverse := false }) ∧
    (∀ (k : String) (c : Char) (cs : List Char), k.data = c :: cs →
      c ≠ '-' → c ≠ '+' →
      _batch_sorter_from_str k = { key := k, reverse := false }) := by
  refine ⟨?_, ?_, ?_⟩
  · exact ⟨sortBatchesList a.order_by l,
      sortBatchesE_ok a.order_by l hkeys,
      perm_sortBatchesList a.order_by l,
      pairwise_lex_sortBatchesList a.order_by l⟩
  · intro k
    exact ⟨rfl, rfl⟩
  · intro k c cs hk hm hp
    rw [_batch_sorter_from_str.eq_def]
    split
    · next rest heq =>
      rw [hk] at heq
      cases heq
      exact absurd rfl hm
    · next rest heq =>
      rw [hk] at heq
      cases heq
      exact absurd rfl hp
    · rfl

theorem c5_witness :
    ∃ m, DataAsset.sort_batches
        { name := "tbl", type := "table",
          order_by := [{ key := "y", reverse := false }] }
        [mkBatch { type := "pandas", name := "ds" }
          { name := "tbl", type := "table" }
          { datasource_name := "ds", data_asset_name := "tbl",
            options := [("p", "1")] } [("y", 2)],
         mkBatch { type := "pandas", name := "ds" }
          { name := "tbl", type := "table" }
          { datasource_name := "ds", data_asset_name := "tbl",
            options := [("p", "2")] } [("y", 1)]] = .ok m ∧
      List.Perm m
        [mkBatch { type := "pandas", name := "ds" }
          { name := "tbl", type := "table" }
          { datasource_name := "ds", data_asset_name := "tbl",
            options := [("p", "1")] } [("y", 2)],
         mkBatch { type := "pandas", name := "ds" }
          { name := "tbl", type := "table" }
          { datasource_name := "ds", data_asset_name := "tbl",
            options := [("p", "2")] } [("y", 1)]] ∧
      m.Pairwise (fun x y =>
        lexLe [{ key := "y", reverse := false }] x y = true) :=
  (c5_sort_batches
    { name := "tbl", type := "table",
      order_by := [{ key := "y", reverse := false }] }
    [mkBatch { type := "pandas", name := "ds" }
      { name := "tbl", type := "table" }
      { datasource_name := "ds", data_asset_name := "tbl",
        options := [("p", "1")] } [("y", 2)],
     mkBatch { type := "pandas", name := "ds" }
      { name := "tbl", type := "table" }
      { datasource_name := "ds", data_asset_name := "tbl",
        options := [("p", "2")] } [("y", 1)]]
    (by decide)).1

end GX
